import Mathlib

set_option maxRecDepth 100000

/-!
Shallow embedding of the notification-card widget:

* the framework-agnostic engine (`notification_card.js`, an IIFE exposing
  `window.NotificationCard` with `init` and `show`, plus the private helpers
  `initializeCard`, `dismissCard`, `animateIn`, `getVariant`, `logNotification`,
  `getDefaultIcon`, `escapeHtml`), and
* the Drupal adapter (`shoelace-init.js`: behavior `convertDrupalMessages`).

DOM elements are modelled as records of exactly the pieces of browser state the
code reads or writes (class string, dataset flags, attached listeners, inline
style fields, attachment to the document).  Timers (`setTimeout`) are modelled
as an explicit pending-callback list with scheduled fire times; the
single-threaded event loop fires the earliest pending timer first, ties broken
by insertion order, as the HTML timer queue does.  `CustomEvent` dispatches on
`document` are recorded in an append-only trace.
-/

namespace SdcNotification

/-- The characters of `pat` occur at the start of `s` (helper for substring
search, char-by-char). -/
def leadsWith : List Char → List Char → Bool
  | [], _ => true
  | _ :: _, [] => false
  | a :: as, b :: bs => a == b && leadsWith as bs

/-- `pat` occurs contiguously somewhere in the second list. -/
def hasSub (pat : List Char) : List Char → Bool
  | [] => leadsWith pat []
  | b :: bs => leadsWith pat (b :: bs) || hasSub pat bs

/-- JS `String.prototype.includes`: `strContains s pat` is `s.includes(pat)`. -/
def strContains (s pat : String) : Bool :=
  hasSub pat.toList s.toList

/-- `getVariant(card)` from notification_card.js: reads `card.className` and
tests `classes.includes('notification-card--success')`, then `--warning`,
then `--danger`, returning the first hit, else `'info'`. -/
def getVariant (className : String) : String :=
  if strContains className "notification-card--success" then "success"
  else if strContains className "notification-card--warning" then "warning"
  else if strContains className "notification-card--danger" then "danger"
  else "info"

/-- The `options` object passed to `NotificationCard.show`: every field may be
absent (JS `undefined`). -/
structure Options where
  variant : Option String
  title : Option String
  message : Option String
  dismissible : Option Bool
  duration : Option Nat
  icon : Option String
deriving DecidableEq

/-- The fully-defaulted config produced by
`Object.assign({}, defaults, options)` inside `show`. -/
structure Config where
  variant : String
  title : String
  message : String
  dismissible : Bool
  duration : Nat
  icon : String
deriving DecidableEq

/-- `getDefaultIcon(variant)`: object lookup `icons[variant] || icons.info`.
An absent (`undefined`) or unknown variant falls through to `icons.info`. -/
def getDefaultIcon (variant : Option String) : String :=
  match variant with
  | some v =>
      if v = "info" then "info-circle"
      else if v = "success" then "check-circle"
      else if v = "warning" then "exclamation-triangle"
      else if v = "danger" then "exclamation-octagon"
      else "info-circle"
  | none => "info-circle"

/-- The `defaults` object of `show` merged with the caller's `options` by
`Object.assign({}, defaults, options)`: a field present in `options` wins,
otherwise the default applies.  Note the default `icon` is computed from
`options.variant` (the raw, pre-merge field). -/
def resolveConfig (o : Options) : Config :=
  { variant := o.variant.getD "info"
    title := o.title.getD "Notification"
    message := o.message.getD ""
    dismissible := o.dismissible.getD true
    duration := o.duration.getD 0
    icon := o.icon.getD (getDefaultIcon o.variant) }

/-- One character of the browser's HTML serialization of a text node:
`escapeHtml` sets `div.textContent = text` and reads back `div.innerHTML`,
which escapes the markup-significant characters. -/
def escapeChar (c : Char) : String :=
  if c = '&' then "&amp;"
  else if c = '<' then "&lt;"
  else if c = '>' then "&gt;"
  else String.singleton c

/-- `escapeHtml(text)` from notification_card.js (via the browser's
textContent/innerHTML round trip). -/
def escapeHtml (text : String) : String :=
  String.join (text.toList.map escapeChar)

/-- The dismiss-control markup interpolated when `config.dismissible`. -/
def dismissButtonHtml : String :=
  "<sl-icon-button name=\"x-lg\" label=\"Dismiss\" class=\"notification-dismiss\"></sl-icon-button>"

/-- The template literal assigned to `notification.innerHTML` in `show`:
`config.title` passes through `escapeHtml`, while `config.icon` and
`config.message` are interpolated verbatim. -/
def buildMarkup (c : Config) : String :=
  "\n        <sl-card class=\"notification-card notification-card--" ++ c.variant ++ "\">\n" ++
  "          <div slot=\"header\" class=\"notification-header\">\n" ++
  "            <div class=\"notification-icon\">\n" ++
  "              <sl-icon name=\"" ++ c.icon ++ "\"></sl-icon>\n" ++
  "            </div>\n" ++
  "            <div class=\"notification-title-wrapper\">\n" ++
  "              <h3 class=\"notification-title\">" ++ escapeHtml c.title ++ "</h3>\n" ++
  "            </div>\n" ++
  "            " ++ (if c.dismissible then dismissButtonHtml else "") ++ "\n" ++
  "          </div>\n" ++
  "          <div class=\"notification-message\">\n" ++
  "            " ++ c.message ++ "\n" ++
  "          </div>\n" ++
  "        </sl-card>\n      "

/-- The `className` of the `<sl-card>` element `show` creates
(`notification.firstElementChild`). -/
def cardClass (c : Config) : String :=
  "notification-card notification-card--" ++ c.variant

/-- A pending `setTimeout` callback of the engine, identified by the call
site that scheduled it. -/
inductive Callback
  /-- the 50 ms callback of `animateIn` that applies the entrance target state -/
  | animStep
  /-- the 5000 ms success auto-dismiss scheduled by `initializeCard` -/
  | autoDismissSuccess
  /-- the `config.duration` auto-dismiss scheduled by `show` -/
  | showAutoDismiss
  /-- the 300 ms removal step scheduled by `dismissCard` -/
  | removeStep
deriving DecidableEq

/-- A `CustomEvent` dispatched on `document`. -/
inductive EmittedEvent
  /-- `notificationDismiss` with detail `{variant, title}`; `title` is the
  optional-chained `textContent` of the `.notification-title` descendant. -/
  | dismissEvt (variant : String) (title : Option String)
  /-- `notificationRemoved` with detail `{variant}`. -/
  | removedEvt (variant : String)
deriving DecidableEq

/-- The browser state of one notification card element: exactly the pieces the
engine reads or writes.  Listener fields count how many copies of the
corresponding `addEventListener` wiring are attached. -/
structure CardState where
  /-- `dataset.notificationInitialized === 'true'` -/
  marker : Bool
  /-- dismiss-button click handlers attached (one per `initializeCard` run
  when a `.notification-dismiss` descendant exists) -/
  clickListeners : Nat
  /-- mouseenter/mouseleave hover handler pairs attached -/
  hoverListeners : Nat
  /-- keydown (Escape) handlers attached -/
  keyListeners : Nat
  /-- `tabindex="0"` has been set -/
  tabindexSet : Bool
  /-- a `.notification-dismiss` descendant exists in the card's subtree -/
  hasDismissButton : Bool
  /-- `dataset.autoDismiss === 'false'` (explicit opt-out attribute) -/
  autoDismissFalse : Bool
  /-- the element is attached to the document -/
  attached : Bool
  /-- `className` -/
  className : String
  /-- `textContent` of the `.notification-title` descendant, if any -/
  titleText : Option String
  /-- inline `style.opacity` -/
  opacity : String
  /-- inline `style.transform` -/
  transform : String
  /-- inline `style.transition` -/
  transition : String
deriving DecidableEq

/-- The world of a single card: its element, pending timers (fire time and
callback, in scheduling order), the current clock, the trace of events
dispatched on `document`, and the analytics log entries appended to
localStorage. -/
structure Sys where
  card : CardState
  timers : List (Nat × Callback)
  now : Nat
  events : List EmittedEvent
  logs : List (String × Option String)
deriving DecidableEq

/-- `animateIn(card)`: set the pre-animation state, then schedule the 50 ms
callback that applies the target state. -/
def animateIn (s : Sys) : Sys :=
  let s := { s with card := { s.card with opacity := "0", transform := "translateX(100%)" } }
  { s with timers := s.timers ++ [(s.now + 50, Callback.animStep)] }

/-- The body of `animateIn`'s 50 ms `setTimeout`. -/
def animStepRun (s : Sys) : Sys :=
  { s with card := { s.card with
      transition := "all 0.4s cubic-bezier(0.4, 0, 0.2, 1)"
      opacity := "1"
      transform := "translateX(0)" } }

/-- `logNotification(card)`: append `{variant, title, timestamp}` to the
localStorage log (the timestamp is ambient wall-clock noise; the recorded
data is variant and title). -/
def logNotification (s : Sys) : Sys :=
  { s with logs := s.logs ++ [(getVariant s.card.className, s.card.titleText)] }

/-- `initializeCard(card)`: wire the dismiss click handler (if a dismiss
button exists), schedule the 5000 ms success auto-dismiss (unless opted out),
play the entrance animation, wire hover handlers, set `tabindex` and wire the
Escape key handler, and log the notification.  Note it does NOT check or set
`dataset.notificationInitialized`; its callers differ in that respect. -/
def initializeCard (s : Sys) : Sys :=
  let s := if s.card.hasDismissButton then
      { s with card := { s.card with clickListeners := s.card.clickListeners + 1 } }
    else s
  let s := if getVariant s.card.className = "success" ∧ s.card.autoDismissFalse = false then
      { s with timers := s.timers ++ [(s.now + 5000, Callback.autoDismissSuccess)] }
    else s
  let s := animateIn s
  let s := { s with card := { s.card with hoverListeners := s.card.hoverListeners + 1 } }
  let s := { s with card := { s.card with tabindexSet := true, keyListeners := s.card.keyListeners + 1 } }
  logNotification s

/-- `NotificationCard.init(element)` with an element argument: skip when the
per-element marker is already set, otherwise set it and run
`initializeCard`. -/
def init (s : Sys) : Sys :=
  if s.card.marker then s
  else initializeCard { s with card := { s.card with marker := true } }

/-- `dismissCard(card)`: dispatch `notificationDismiss` (variant, title) on
`document`, apply the exit transition styles, and schedule removal 300 ms
later. -/
def dismissCard (s : Sys) : Sys :=
  let s := { s with events :=
      s.events ++ [EmittedEvent.dismissEvt (getVariant s.card.className) s.card.titleText] }
  let s := { s with card := { s.card with
      transition := "all 0.3s ease-out"
      opacity := "0"
      transform := "translateX(100%)" } }
  { s with timers := s.timers ++ [(s.now + 300, Callback.removeStep)] }

/-- The body of `dismissCard`'s 300 ms `setTimeout`: `card.remove()` (a no-op
when the element is already detached — never an error), then dispatch
`notificationRemoved` (variant). -/
def removeStepRun (s : Sys) : Sys :=
  let s := { s with card := { s.card with attached := false } }
  { s with events := s.events ++ [EmittedEvent.removedEvt (getVariant s.card.className)] }

/-- Run the body of a pending timer. -/
def runCallback : Callback → Sys → Sys
  | Callback.animStep, s => animStepRun s
  | Callback.autoDismissSuccess, s => dismissCard s
  | Callback.showAutoDismiss, s => dismissCard s
  | Callback.removeStep, s => removeStepRun s

/-- Select the pending timer the event loop fires next: earliest fire time,
ties broken by scheduling order.  Returns it and the remaining queue. -/
def pickEarliest : List (Nat × Callback) → Option ((Nat × Callback) × List (Nat × Callback))
  | [] => none
  | t :: rest =>
      match pickEarliest rest with
      | none => some (t, [])
      | some (m, others) =>
          if t.1 ≤ m.1 then some (t, rest) else some (m, t :: others)

/-- One event-loop step: fire the next pending timer (advancing the clock to
its fire time) or do nothing if none is pending. -/
def stepTimer (s : Sys) : Sys :=
  match pickEarliest s.timers with
  | none => s
  | some (t, rest) => runCallback t.2 { s with timers := rest, now := max s.now t.1 }

/-- A user click on the dismiss button: every attached click handler runs,
each calling `dismissCard(card)`. -/
def clickDismissBtn (s : Sys) : Sys :=
  dismissCard^[s.card.clickListeners] s

/-- The freshly-created `<sl-card>` element produced by `show`'s
`innerHTML` assignment, before `initializeCard` touches it.  `show` does not
set `dataset.notificationInitialized`. -/
def mkCard (c : Config) : CardState :=
  { marker := false
    clickListeners := 0
    hoverListeners := 0
    keyListeners := 0
    tabindexSet := false
    hasDismissButton := c.dismissible
    autoDismissFalse := false
    attached := true
    className := cardClass c
    titleText := some c.title
    opacity := ""
    transform := ""
    transition := "" }

/-- `NotificationCard.show(options)` after the defaults merge: build the card,
append it to the container, run `initializeCard`, and — when
`config.duration > 0` — schedule auto-dismissal after that many ms.  The
returned `Sys` is the world of the created card. -/
def showNotification (o : Options) (now : Nat) : Sys :=
  let c := resolveConfig o
  let s : Sys := { card := mkCard c, timers := [], now := now, events := [], logs := [] }
  let s := initializeCard s
  if c.duration > 0 then
    { s with timers := s.timers ++ [(now + c.duration, Callback.showAutoDismiss)] }
  else s

/-- The JS exceptions the engine can raise. -/
inductive JsError
  /-- `TypeError: Cannot read properties of undefined` -/
  | typeError
deriving DecidableEq

/-- DOM mutations `show` performs, in order. -/
inductive DomAction
  /-- create-if-absent and use the singleton `.notification-container` -/
  | ensureContainer
  /-- append the new card to the container -/
  | appendCard
deriving DecidableEq

/-- `NotificationCard.show(options)` including the call boundary: the very
first statement builds the `defaults` object, whose `icon` field evaluates
`options.variant`; when `options` is `undefined` that member access throws a
`TypeError` before any DOM mutation.  Otherwise the body runs: the container
is ensured, the card appended, and the engine pipeline executes. -/
def showTrace (options : Option Options) (now : Nat) :
    List DomAction × Except JsError Sys :=
  match options with
  | none => ([], Except.error JsError.typeError)
  | some o =>
      ([DomAction.ensureContainer, DomAction.appendCard],
       Except.ok (showNotification o now))

/-- Timers that dismiss the card when they fire (auto-dismiss timers, as
opposed to the cosmetic animation step). -/
def autoTimers (s : Sys) : List (Nat × Callback) :=
  s.timers.filter fun t =>
    (t.2 == Callback.autoDismissSuccess) || (t.2 == Callback.showAutoDismiss)

/-- Number of `notificationRemoved` events in a trace. -/
def countRemoved (evts : List EmittedEvent) : Nat :=
  (evts.filter fun e => match e with
    | EmittedEvent.removedEvt _ => true
    | _ => false).length

/-- Number of `notificationDismiss` events in a trace. -/
def countDismiss (evts : List EmittedEvent) : Nat :=
  (evts.filter fun e => match e with
    | EmittedEvent.dismissEvt _ _ => true
    | _ => false).length

/-- A Drupal status-message block (`.messages`) as seen by the
`convertDrupalMessages` behavior in shoelace-init.js: its class list, the
optional `.messages__title` descendant's text, the optional
`.messages__content, .messages__list` descendant's markup, the block's own
markup (the `querySelector || messageEl` fallback), the `once` processing
marker, and whether the block has been hidden. -/
structure MessageBlock where
  classes : List String
  titleText : Option String
  contentHtml : Option String
  selfHtml : String
  onceMarked : Bool
  hidden : Bool
deriving DecidableEq

/-- The variant derivation of `convertDrupalMessages`: three sequential
(non-else) `if` statements over `classList.contains`, starting from
`'info'` — so a later test overwrites an earlier hit. -/
def msgVariant (b : MessageBlock) : String :=
  let v := "info"
  let v := if b.classes.contains "messages--status" then "success" else v
  let v := if b.classes.contains "messages--warning" then "warning" else v
  if b.classes.contains "messages--error" then "danger" else v

/-- The options object `convertDrupalMessages` passes to
`NotificationCard.show` for one block. -/
def msgOptions (b : MessageBlock) : Options :=
  let variant := msgVariant b
  { variant := some variant
    title := some (b.titleText.getD "Notification")
    message := some (b.contentHtml.getD b.selfHtml)
    dismissible := some true
    duration := some (if variant = "success" then 5000 else 0)
    icon := none }

/-- One `convertDrupalMessages.attach` pass over one block: `once` yields the
block only if it is not yet marked (marking it); the callback shows the
derived notification and hides the original block.  Returns the world of the
created card (or `none` when the block was already processed) and the updated
block. -/
def convertAttach (b : MessageBlock) (now : Nat) : Option Sys × MessageBlock :=
  if b.onceMarked then (none, b)
  else
    (some (showNotification (msgOptions b) now),
     { b with onceMarked := true, hidden := true })

/-- A declaratively-rendered notification card as the engine first finds it:
no marker, no wiring, attached to the document, with a dismiss button and a
title. -/
def templateCard : Sys :=
  { card :=
      { marker := false
        clickListeners := 0
        hoverListeners := 0
        keyListeners := 0
        tabindexSet := false
        hasDismissButton := true
        autoDismissFalse := false
        attached := true
        className := "notification-card notification-card--info"
        titleText := some "T"
        opacity := ""
        transform := ""
        transition := "" }
    timers := []
    now := 0
    events := []
    logs := [] }

/-- The same card already detached from the document. -/
def detachedCard : Sys :=
  { templateCard with card := { templateCard.card with attached := false } }

theorem initializeCard_marker (s : Sys) :
    (initializeCard s).card.marker = s.card.marker := by
  simp only [initializeCard, animateIn, logNotification]
  split <;> split <;> rfl

theorem initializeCard_clickListeners (s : Sys) :
    (initializeCard s).card.clickListeners =
      if s.card.hasDismissButton then s.card.clickListeners + 1
      else s.card.clickListeners := by
  simp only [initializeCard, animateIn, logNotification]
  split <;> split <;> rfl

theorem init_of_marker (s : Sys) (h : s.card.marker = true) : init s = s := by
  simp [init, h]

theorem init_marker_true (s : Sys) (h : ¬ s.card.marker = true) :
    (init s).card.marker = true := by
  unfold init
  rw [if_neg h, initializeCard_marker]

theorem init_idem (s : Sys) : init (init s) = init s := by
  by_cases h : s.card.marker = true
  · rw [init_of_marker s h]
    exact init_of_marker s h
  · exact init_of_marker _ (init_marker_true s h)

theorem showNotification_autoTimers (o : Options) (now : Nat) :
    autoTimers (showNotification o now) =
      (if getVariant (cardClass (resolveConfig o)) = "success"
        then [(now + 5000, Callback.autoDismissSuccess)] else [])
      ++ (if (resolveConfig o).duration > 0
        then [(now + (resolveConfig o).duration, Callback.showAutoDismiss)] else []) := by
  simp only [showNotification, initializeCard, animateIn, logNotification, mkCard, autoTimers]
  split <;> split <;> split <;>
    simp_all [cardClass, List.filter_append, List.filter] <;> rfl

/-- C1 counterexample: an element created by `show()` does not bear the
idempotency marker (only `init`/`initializeAll` set it), so after `show`
plus two `NotificationCard.init` calls the element carries TWO dismiss click
handlers, and one click on the dismiss button fires `dismissCard` twice —
refuting "the dismiss click handler fires dismiss exactly once per click ...
for every element however it came to exist, including elements created by
show()". -/
theorem C1_counterexample :
    countDismiss ((clickDismissBtn (init (init (showNotification
        ⟨some "info", some "T", some "", some true, some 0, none⟩ 0)))).events) ≠ 1 ∧
    countDismiss ((clickDismissBtn (init (init (showNotification
        ⟨some "info", some "T", some "", some true, some 0, none⟩ 0)))).events) = 2 ∧
    (init (init (showNotification
        ⟨some "info", some "T", some "", some true, some 0, none⟩ 0))).card.clickListeners = 2 := by
  refine ⟨by decide, by decide, by decide⟩

/-- C1 (amended): lifecycle wiring is attached at most once through `init`:
a call on an element already bearing the marker is a no-op, `init` is
idempotent, and two `init` calls on a previously-unwired element attach
exactly one dismiss click handler (one click fires dismiss once).  Elements
created by `show()` are the exception: `show` runs `initializeCard` without
setting the marker, so a single later `init` call attaches a second set of
wiring. -/
theorem C1_init_wiring (s : Sys) :
    (s.card.marker = true → init s = s) ∧
    init (init s) = init s ∧
    (s.card.marker = false → s.card.hasDismissButton = true →
      s.card.clickListeners = 0 → (init (init s)).card.clickListeners = 1) ∧
    countDismiss ((clickDismissBtn (init (init templateCard))).events) = 1 ∧
    (init (showNotification
        ⟨some "info", some "T", some "", some true, some 0, none⟩ 0)).card.clickListeners = 2 := by
  refine ⟨init_of_marker s, init_idem s, ?_, by decide, by decide⟩
  intro hm hd hc
  rw [init_idem]
  unfold init
  rw [if_neg (by simp [hm]), initializeCard_clickListeners]
  simp [hd, hc]

/-- C1 witness: the general part of `C1_init_wiring` applied to a fresh
template card. -/
theorem C1_witness :
    (init (init templateCard)).card.clickListeners = 1 :=
  (C1_init_wiring templateCard).2.2.1 rfl rfl rfl

/-- C2 counterexample: `dismissCard` has no dismissing-state guard — a second
`dismiss(el)` call before the 300 ms removal window schedules a second removal
callback, and once both fire the trace holds two `notificationRemoved`
events, refuting "a second dismiss(el) call ... produces no duplicate
notificationRemoved event". -/
theorem C2_counterexample :
    countRemoved ((stepTimer (stepTimer (dismissCard (dismissCard templateCard)))).events) = 2 ∧
    countRemoved ((stepTimer (stepTimer (dismissCard (dismissCard templateCard)))).events) ≠ 1 := by
  refine ⟨by decide, by decide⟩

/-- C2 (amended): nothing makes `dismiss` a no-op on an already-dismissing
element.  A second `dismiss(el)` before the 300 ms window re-dispatches
`notificationDismiss` and schedules a second removal callback, so after both
fire the document has seen two `notificationDismiss` and two
`notificationRemoved` events.  Only the DOM detachment itself is idempotent
in effect (`remove()` on a detached element is a harmless no-op, and the
element ends detached). -/
theorem C2_double_dismiss (s : Sys) (h : s.timers = []) :
    (dismissCard (dismissCard s)).timers =
      [(s.now + 300, Callback.removeStep), (s.now + 300, Callback.removeStep)] ∧
    (stepTimer (stepTimer (dismissCard (dismissCard s)))).events =
      s.events ++
        [EmittedEvent.dismissEvt (getVariant s.card.className) s.card.titleText,
         EmittedEvent.dismissEvt (getVariant s.card.className) s.card.titleText,
         EmittedEvent.removedEvt (getVariant s.card.className),
         EmittedEvent.removedEvt (getVariant s.card.className)] ∧
    countRemoved ((stepTimer (stepTimer (dismissCard (dismissCard s)))).events) =
      countRemoved s.events + 2 ∧
    (stepTimer (stepTimer (dismissCard (dismissCard s)))).card.attached = false := by
  simp [dismissCard, stepTimer, pickEarliest, runCallback, removeStepRun, h,
    countRemoved, List.filter_append]

/-- C2 witness: `C2_double_dismiss` applied to the fresh template card. -/
theorem C2_witness :
    countRemoved ((stepTimer (stepTimer (dismissCard (dismissCard templateCard)))).events) =
      countRemoved templateCard.events + 2 :=
  (C2_double_dismiss templateCard rfl).2.2.1

/-- C3 counterexample: `show({variant:'success', duration:0})` does schedule
an auto-dismiss timer — `initializeCard`, which `show` always runs, schedules
a 5000 ms success auto-dismiss independently of `config.duration` — refuting
"an automatic dismissal is scheduled if and only if the config's duration is
greater than 0". -/
theorem C3_counterexample :
    autoTimers (showNotification ⟨some "success", none, none, none, some 0, none⟩ 0)
      = [(5000, Callback.autoDismissSuccess)] ∧
    autoTimers (showNotification ⟨some "success", none, none, none, some 0, none⟩ 0) ≠ [] := by
  refine ⟨by decide, by decide⟩

/-- C3 (amended): `show` schedules its own auto-dismiss timer iff
`config.duration > 0`, but `initializeCard` additionally schedules a fixed
5000 ms auto-dismiss whenever the created card's derived variant is
`success` (a fresh card carries no `data-auto-dismiss="false"` opt-out).  So
`show({variant:'success', duration:0})` still auto-dismisses after 5000 ms,
while `show({variant:'info', duration:3000})` schedules exactly one
auto-dismiss timer: the element is still attached after the first two
event-loop steps and is detached at t = 3300 ms (3000 ms dismiss + 300 ms
removal). -/
theorem C3_auto_dismiss_schedule (o : Options) (now : Nat) :
    autoTimers (showNotification o now) =
      (if getVariant (cardClass (resolveConfig o)) = "success"
        then [(now + 5000, Callback.autoDismissSuccess)] else [])
      ++ (if (resolveConfig o).duration > 0
        then [(now + (resolveConfig o).duration, Callback.showAutoDismiss)] else []) ∧
    (stepTimer^[2] (showNotification ⟨some "info", none, none, none, some 3000, none⟩ 0)).card.attached = true ∧
    (stepTimer^[3] (showNotification ⟨some "info", none, none, none, some 3000, none⟩ 0)).card.attached = false ∧
    (stepTimer^[3] (showNotification ⟨some "info", none, none, none, some 3000, none⟩ 0)).now = 3300 := by
  exact ⟨showNotification_autoTimers o now, by decide, by decide, by decide⟩

/-- C3 witness: the schedule equation evaluated at the
success/duration-0 options. -/
theorem C3_witness :
    autoTimers (showNotification ⟨some "success", none, none, none, some 0, none⟩ 7) =
      (if getVariant (cardClass (resolveConfig
          ⟨some "success", none, none, none, some 0, none⟩)) = "success"
        then [(7 + 5000, Callback.autoDismissSuccess)] else [])
      ++ (if (resolveConfig ⟨some "success", none, none, none, some 0, none⟩).duration > 0
        then [(7 + (resolveConfig ⟨some "success", none, none, none, some 0, none⟩).duration,
          Callback.showAutoDismiss)] else []) :=
  (C3_auto_dismiss_schedule ⟨some "success", none, none, none, some 0, none⟩ 7).1

/-- C4: in the markup `show` builds, `title` is HTML-escaped while `message`
and `icon` are interpolated verbatim: with title `<script>x</script>`,
message `<b>ok</b>` and icon `<ic>`, the markup contains the escaped title
text, contains no `<script>` tag anywhere, and preserves the raw message and
icon fragments. -/
theorem C4_title_escaped_message_raw :
    (strContains (buildMarkup (resolveConfig
        ⟨none, some "<script>x</script>", some "<b>ok</b>", none, none, some "<ic>"⟩))
      "&lt;script&gt;x&lt;/script&gt;" = true) ∧
    (strContains (buildMarkup (resolveConfig
        ⟨none, some "<script>x</script>", some "<b>ok</b>", none, none, some "<ic>"⟩))
      "<script>" = false) ∧
    (strContains (buildMarkup (resolveConfig
        ⟨none, some "<script>x</script>", some "<b>ok</b>", none, none, some "<ic>"⟩))
      "<b>ok</b>" = true) ∧
    (strContains (buildMarkup (resolveConfig
        ⟨none, some "<script>x</script>", some "<b>ok</b>", none, none, some "<ic>"⟩))
      "name=\"<ic>\"" = true) := by
  refine ⟨by decide, by decide, by decide, by decide⟩

/-- C5: round trip between `show` and `getVariant` — for every config whose
`variant` is absent or one of the four documented values, the created
element's derived variant equals `config.variant` (or `info` when
omitted). -/
theorem C5_show_getVariant_round_trip (o : Options)
    (h : o.variant = none ∨ o.variant = some "info" ∨ o.variant = some "success" ∨
         o.variant = some "warning" ∨ o.variant = some "danger") :
    getVariant (cardClass (resolveConfig o)) = o.variant.getD "info" := by
  rcases h with h | h | h | h | h <;> simp only [cardClass, resolveConfig, h] <;> decide

/-- C5 witness: the round trip at `variant := some "warning"`. -/
theorem C5_witness :
    getVariant (cardClass (resolveConfig
        ⟨some "warning", none, none, none, none, none⟩)) = (some "warning").getD "info" :=
  C5_show_getVariant_round_trip ⟨some "warning", none, none, none, none, none⟩
    (Or.inr (Or.inr (Or.inr (Or.inl rfl))))

/-- C6: `dismiss(element)` first dispatches `notificationDismiss`
(variant, title) on the document, applies the exit transition styles
(translate + fade over 0.3 s), and schedules removal after the fixed 300 ms;
when that timer fires the element is detached and `notificationRemoved`
(variant) is dispatched.  The flow holds for every element state, including
an already-detached element — removal never raises. -/
theorem C6_dismiss_flow (s : Sys) (h : s.timers = []) :
    (dismissCard s).events =
      s.events ++ [EmittedEvent.dismissEvt (getVariant s.card.className) s.card.titleText] ∧
    (dismissCard s).card.transition = "all 0.3s ease-out" ∧
    (dismissCard s).card.opacity = "0" ∧
    (dismissCard s).card.transform = "translateX(100%)" ∧
    (dismissCard s).timers = [(s.now + 300, Callback.removeStep)] ∧
    (stepTimer (dismissCard s)).now = s.now + 300 ∧
    (stepTimer (dismissCard s)).card.attached = false ∧
    (stepTimer (dismissCard s)).events =
      s.events ++ [EmittedEvent.dismissEvt (getVariant s.card.className) s.card.titleText,
                   EmittedEvent.removedEvt (getVariant s.card.className)] := by
  simp [dismissCard, stepTimer, pickEarliest, runCallback, removeStepRun, h]

/-- C6 witness: the dismiss flow run on an already-detached card — the
removal step still completes silently. -/
theorem C6_witness :
    (stepTimer (dismissCard detachedCard)).card.attached = false ∧
    (stepTimer (dismissCard detachedCard)).events =
      detachedCard.events ++
        [EmittedEvent.dismissEvt (getVariant detachedCard.card.className)
          detachedCard.card.titleText,
         EmittedEvent.removedEvt (getVariant detachedCard.card.className)] :=
  ⟨(C6_dismiss_flow detachedCard rfl).2.2.2.2.2.2.1,
   (C6_dismiss_flow detachedCard rfl).2.2.2.2.2.2.2⟩

/-- C7: for every config with any subset of fields absent, the documented
defaults are substituted (variant `info`, title `Notification`, empty
message, dismissible, duration 0 meaning `show` schedules no own auto-dismiss
timer, and the per-variant default icon with `info-circle` for unknown or
absent variants), and `show` with a supplied — possibly empty — options
object never raises. -/
theorem C7_defaults (o : Options) (now : Nat) :
    (o.variant = none → (resolveConfig o).variant = "info") ∧
    (o.title = none → (resolveConfig o).title = "Notification") ∧
    (o.message = none → (resolveConfig o).message = "") ∧
    (o.dismissible = none → (resolveConfig o).dismissible = true) ∧
    (o.duration = none → (resolveConfig o).duration = 0 ∧
      ∀ t ∈ (showNotification o now).timers, t.2 ≠ Callback.showAutoDismiss) ∧
    (o.icon = none → (resolveConfig o).icon = getDefaultIcon o.variant) ∧
    getDefaultIcon (some "info") = "info-circle" ∧
    getDefaultIcon (some "success") = "check-circle" ∧
    getDefaultIcon (some "warning") = "exclamation-triangle" ∧
    getDefaultIcon (some "danger") = "exclamation-octagon" ∧
    getDefaultIcon none = "info-circle" ∧
    (∀ v : String, v ≠ "info" → v ≠ "success" → v ≠ "warning" → v ≠ "danger" →
      getDefaultIcon (some v) = "info-circle") ∧
    (showTrace (some o) now).2 = Except.ok (showNotification o now) := by
  refine ⟨fun h => by simp [resolveConfig, h], fun h => by simp [resolveConfig, h],
    fun h => by simp [resolveConfig, h], fun h => by simp [resolveConfig, h],
    ?_, fun h => by simp [resolveConfig, h],
    rfl, rfl, rfl, rfl, rfl, ?_, rfl⟩
  · intro h
    have hd : (resolveConfig o).duration = 0 := by simp [resolveConfig, h]
    refine ⟨hd, ?_⟩
    intro t ht hcontra
    have hmem : t ∈ autoTimers (showNotification o now) := by
      simp [autoTimers, List.mem_filter, ht, hcontra]
    rw [showNotification_autoTimers, hd] at hmem
    split at hmem <;> simp_all
  · intro v h1 h2 h3 h4
    simp [getDefaultIcon, h1, h2, h3, h4]

/-- C7 witness: the defaults at the empty options object. -/
theorem C7_witness :
    (resolveConfig ⟨none, none, none, none, none, none⟩).variant = "info" ∧
    (resolveConfig ⟨none, none, none, none, none, none⟩).title = "Notification" ∧
    (resolveConfig ⟨none, none, none, none, none, none⟩).dismissible = true ∧
    (resolveConfig ⟨none, none, none, none, none, none⟩).icon = getDefaultIcon none ∧
    getDefaultIcon (some "bogus") = "info-circle" := by
  obtain ⟨h1, h2, _, h4, _, h6, _, _, _, _, _, hu, _⟩ :=
    C7_defaults ⟨none, none, none, none, none, none⟩ 0
  exact ⟨h1 rfl, h2 rfl, h4 rfl, h6 rfl,
    hu "bogus" (by decide) (by decide) (by decide) (by decide)⟩

/-- C8: the Drupal status-message conversion bridge derives: variant by the
fixed class mapping (`messages--status` → success, `messages--warning` →
warning, `messages--error` → danger, none → info), title from the
`.messages__title` text defaulting to `Notification`, message from the
designated content sub-element's markup (falling back to the block's own
markup), `dismissible: true`, and duration 5000 iff the derived variant is
success, else 0; an unprocessed block is shown through the Engine's creation
path and hidden, and a once-marked block is left untouched. -/
theorem C8_convert_messages (b : MessageBlock) (now : Nat) :
    (msgOptions b).dismissible = some true ∧
    (msgOptions b).title = some (b.titleText.getD "Notification") ∧
    (msgOptions b).message = some (b.contentHtml.getD b.selfHtml) ∧
    ((msgOptions b).duration = some 5000 ↔ msgVariant b = "success") ∧
    (msgVariant b ≠ "success" → (msgOptions b).duration = some 0) ∧
    (b.classes.contains "messages--error" = true → msgVariant b = "danger") ∧
    (b.classes.contains "messages--error" = false →
      b.classes.contains "messages--warning" = true → msgVariant b = "warning") ∧
    (b.classes.contains "messages--error" = false →
      b.classes.contains "messages--warning" = false →
      b.classes.contains "messages--status" = true → msgVariant b = "success") ∧
    (b.classes.contains "messages--error" = false →
      b.classes.contains "messages--warning" = false →
      b.classes.contains "messages--status" = false → msgVariant b = "info") ∧
    (b.onceMarked = false →
      (convertAttach b now).1 = some (showNotification (msgOptions b) now) ∧
      (convertAttach b now).2.hidden = true ∧
      (convertAttach b now).2.onceMarked = true) ∧
    (b.onceMarked = true → convertAttach b now = (none, b)) := by
  refine ⟨rfl, rfl, rfl, ?_, ?_, ?_, ?_, ?_, ?_, ?_, ?_⟩
  · simp only [msgOptions]
    constructor
    · intro h
      by_contra hne
      simp [if_neg hne] at h
    · intro h
      simp [h]
  · intro h
    simp [msgOptions, h]
  · intro h
    simp_all [msgVariant]
  · intro h1 h2
    simp_all [msgVariant]
  · intro h1 h2 h3
    simp_all [msgVariant]
  · intro h1 h2 h3
    simp_all [msgVariant]
  · intro h
    simp [convertAttach, h]
  · intro h
    simp [convertAttach, h]

/-- C8 witness: a fresh `messages--status` block converts to a success
notification with duration 5000 and is hidden. -/
theorem C8_witness :
    msgVariant ⟨["messages", "messages--status"], none, some "<p>Saved.</p>", "", false, false⟩ = "success" ∧
    (msgOptions ⟨["messages", "messages--status"], none, some "<p>Saved.</p>", "", false, false⟩).duration = some 5000 ∧
    (convertAttach ⟨["messages", "messages--status"], none, some "<p>Saved.</p>", "", false, false⟩ 0).2.hidden = true := by
  obtain ⟨_, _, _, hiff, _, _, _, hs, _, honce, _⟩ :=
    C8_convert_messages ⟨["messages", "messages--status"], none, some "<p>Saved.</p>", "", false, false⟩ 0
  have hv := hs (by decide) (by decide) (by decide)
  exact ⟨hv, hiff.mpr hv, (honce rfl).2.1⟩

/-- C9: `getVariant` is a pure derivation from the element's class string
with no error case: it returns the first matching variant in the priority
order success, warning, danger, else `info`; an element with class
`notification-card--warning` yields `warning`, and one with no variant class
yields `info`. -/
theorem C9_getVariant_priority (cls : String) :
    (strContains cls "notification-card--success" = true → getVariant cls = "success") ∧
    (strContains cls "notification-card--success" = false →
      strContains cls "notification-card--warning" = true → getVariant cls = "warning") ∧
    (strContains cls "notification-card--success" = false →
      strContains cls "notification-card--warning" = false →
      strContains cls "notification-card--danger" = true → getVariant cls = "danger") ∧
    (strContains cls "notification-card--success" = false →
      strContains cls "notification-card--warning" = false →
      strContains cls "notification-card--danger" = false → getVariant cls = "info") ∧
    getVariant "notification-card--warning" = "warning" ∧
    getVariant "notification-card" = "info" := by
  refine ⟨?_, ?_, ?_, ?_, by decide, by decide⟩ <;> intros <;> simp_all [getVariant]

/-- C9 witness: the warning case with the other marker classes absent. -/
theorem C9_witness :
    getVariant "notification-card--warning" = "warning" :=
  (C9_getVariant_priority "notification-card--warning").2.1 (by decide) (by decide)

/-- C10: `NotificationCard.show()` with no argument throws a `TypeError`
while building the `defaults` object (it reads `options.variant` for the
default icon before any merge), before any DOM mutation — no container is
created and no element is appended; with any supplied options object the
call succeeds. -/
theorem C10_show_no_argument :
    (showTrace none 0).2 = Except.error JsError.typeError ∧
    (showTrace none 0).1 = [] ∧
    (∀ o : Options, ∀ now : Nat,
      (showTrace (some o) now).2 = Except.ok (showNotification o now) ∧
      (showTrace (some o) now).1 = [DomAction.ensureContainer, DomAction.appendCard]) :=
  ⟨rfl, rfl, fun _ _ => ⟨rfl, rfl⟩⟩

end SdcNotification
